import Mathlib

/-!
Verification of the LDDC lyric-resolver core against its specification.

The definitions below are a shallow embedding of the two core modules:

* `LDDC/core/auto_fetch_sync.py` — the auto-fetch resolver: duration gate,
  candidate scoring, tolerance-band filtering, quality ranking and
  source-priority selection.
* `LDDC/core/api/lyrics/kw.py` — the Kuwo provider: XOR stream cipher,
  response decoding, octal timing-scale tag, and word-level timing
  reconstruction.

Python floats are modelled by `ℚ` (all constants involved are exact
decimals), byte strings by `List ℕ`, and fallible operations by `Option`.
External collaborators excluded by the specification (HTTP transport,
zlib inflate, GB18030/UTF-8 codecs, base64, the generic lyric-document
parser and the opaque similarity scorers) are passed in as explicit
function parameters, so every failure branch of the repository's own code
is represented faithfully.
-/

/- ================================================================== -/
/- Definitions                                                         -/
/- ================================================================== -/

/-- The fixed Kuwo cipher key, the UTF-8 bytes of `"yeelion"`
(`kw.py`, line 17: `KEY = b"yeelion"`). -/
def KEY : List Nat := [121, 101, 101, 108, 105, 111, 110]

/-- One step of the cyclic XOR stream transform used both by
`_build_params` and `_decode_lyrics` in `kw.py`: byte `i` of the buffer
is XORed with `KEY[i % len(KEY)]`.  `i` is the running byte offset. -/
def xorWith (i : Nat) : List Nat → List Nat
  | [] => []
  | b :: bs => (b ^^^ KEY.getD (i % KEY.length) 0) :: xorWith (i + 1) bs

/-- The Kuwo XOR stream cipher applied from offset 0, exactly the loop
`output[i] = buf_str[i] ^ KEY[i % key_len]` of `kw.py` lines 123-124 and
150-151 (encryption and decryption are the same transform). -/
def xorTransform (buf : List Nat) : List Nat := xorWith 0 buf

/-- Duration sentinel substitution: Python's `(d or s)` on an optional
integer duration, where `None` and `0` are falsy (`auto_fetch_sync.py`
line 84 uses `(info.duration or -4)` and `(result.duration or -8)`). -/
def sentinelDur (d : Option Int) (s : Int) : Int :=
  match d with
  | none => s
  | some v => if v = 0 then s else v

/-- The resolver's duration gate (`auto_fetch_sync.py` line 84):
`if info.duration and abs((info.duration or -4) - (result.duration or -8)) > 4000: continue`.
Returns `true` when the candidate is discarded. -/
def durationGateDiscards (qDur rDur : Option Int) : Bool :=
  match qDur with
  | none => false
  | some q =>
      if q = 0 then false
      else decide (4000 < (sentinelDur (some q) (-4) - sentinelDur rDur (-8)).natAbs)

/-- The candidate score before the low-title penalty
(`auto_fetch_sync.py` lines 91-95).  `titleScore` is always computed;
`artistScore` is `some` iff both sides have an artist, `albumScore` is
`some` iff both sides have an album (and is then `max(…, 0)`, hence
nonnegative, but the definition does not rely on that).  Note the code's
`elif album_score:` is Python truthiness, so `some 0` falls through to
the bare title score. -/
def rawCombined (titleScore : ℚ) (artistScore albumScore : Option ℚ) : ℚ :=
  match artistScore with
  | some a =>
      max (titleScore * 0.5 + a * 0.5)
        (match albumScore with
         | some al => titleScore * 0.5 + a * 0.35 + al * 0.15
         | none => 0)
  | none =>
      match albumScore with
      | some al =>
          if al ≠ 0 then max (titleScore * 0.7 + al * 0.3) (titleScore * 0.8)
          else titleScore
      | none => titleScore

/-- The full structured-keyword candidate score (`auto_fetch_sync.py`
lines 91-97): the combined score, then
`if title_score < 30: score = max(0, score - 35)`. -/
def combineScore (titleScore : ℚ) (artistScore albumScore : Option ℚ) : ℚ :=
  let score := rawCombined titleScore artistScore albumScore
  if titleScore < 30 then max 0 (score - 35) else score

/-- Value of an octal digit character, or `none` for any other character
(a digit `8` or `9` makes Python's `int(s, 8)` raise). -/
def octDigitVal (c : Char) : Option Nat :=
  if '0' ≤ c ∧ c ≤ '7' then some (c.toNat - 48) else none

/-- Accumulating base-8 parse of a digit string, the semantics of
Python's `int(s, 8)` on the `\d+` capture of the `[kuwo:(\d+)]` tag
(`kw.py` line 165). -/
def parseOctCore (acc : Nat) : List Char → Option Nat
  | [] => some acc
  | c :: cs =>
      match octDigitVal c with
      | none => none
      | some d => parseOctCore (acc * 8 + d) cs

/-- Base-8 parse of a nonempty digit string (`int(s, 8)`). -/
def parseOct (s : String) : Option Nat :=
  match s.data with
  | [] => none
  | l => parseOctCore 0 l

/-- Splitting of the parsed `[kuwo:…]` value into the two timing scales
with the zero guard (`kw.py` lines 166-170):
`kuwo_offset = value // 10; kuwo_offset2 = value % 10;`
`if kuwo_offset == 0 or kuwo_offset2 == 0: both = 1`. -/
def kuwoScales (v : Nat) : Nat × Nat :=
  let a := v / 10
  let b := v % 10
  if a = 0 ∨ b = 0 then (1, 1) else (a, b)

/-- Word start offset in milliseconds for a token `<o1,o2>`
(`kw.py` line 203): `abs((offset + offset2) / (kuwo_offset * 2))`.
Pythons's `/` is true division, modelled exactly on `ℚ`. -/
def wordAbs (a : ℚ) (t : Int × Int) : ℚ :=
  |(t.1 : ℚ) + (t.2 : ℚ)| / (a * 2)

/-- Word duration in milliseconds for a token `<o1,o2>`
(`kw.py` line 216): `abs((offset - offset2) / (kuwo_offset2 * 2))`. -/
def wordDur (b : ℚ) (t : Int × Int) : ℚ :=
  |(t.1 : ℚ) - (t.2 : ℚ)| / (b * 2)

/-- Last element of `t :: ts` (the `matches[-1]` of `kw.py` line 213). -/
def lastTok {α : Type} (t : α) : List α → α
  | [] => t
  | u :: us => lastTok u us

/-- The sequence of absolute times emitted for one timed line
(`kw.py` lines 198-218), for a line starting at `ls` ms with word tokens
`toks` (each token is its `(offsetA, offsetB)` pair) and scales `a`,`b`:
the line's own leading timestamp, then for every token after the first
the computed timestamp `ls + wordAbs`, then — when there is at least one
token — the trailing end timestamp
`ls + wordAbs(last) + wordDur(last)`.  With no token at all only the
line's own timestamp is emitted (`calculated_end_timestamp` stays
empty). -/
def emittedTimes (ls a b : ℚ) : List (Int × Int) → List ℚ
  | [] => [ls]
  | t :: ts =>
      ls :: (ts.map (fun u => ls + wordAbs a u) ++
        [ls + wordAbs a (lastTok t ts) + wordDur b (lastTok t ts)])

/-- The `Source` enumeration from `LDDC.common.models` (the sources the
resolver knows about; `auto_fetch_sync.py` defaults to `(QM, KG, NE)`
and the Kuwo adapter uses `Source.KW`). -/
inductive SourceM where
  | QM
  | KG
  | NE
  | KW
deriving DecidableEq, Repr

/-- The shape of a `Lyrics` document as far as the selection phase reads
it (`auto_fetch_sync.py` lines 139-152): its originating source, whether
the original-language track is word-level (`VERBATIM`), whether a
translation (`"ts"`) or romanization (`"roma"`) track is present.  `tag`
is an identity label distinguishing otherwise equal documents. -/
structure LyrM where
  source : SourceM
  origVerbatim : Bool
  hasTs : Bool
  hasRoma : Bool
  tag : Nat
deriving DecidableEq, Repr

/-- One entry of `lyrics_results`: a candidate that yielded a lyric
document, paired with its candidate score from `songs_score`
(`auto_fetch_sync.py` lines 109, 123).  The list is in dict insertion
order. -/
structure Fetched where
  score : ℚ
  lyr : LyrM
deriving DecidableEq, Repr

/-- The quality heuristic `get_rank` (`auto_fetch_sync.py` lines
139-144): +10 for a verbatim original track, +5 for a translation
track, +2 for a romanization track. -/
def getRank (l : LyrM) : Nat :=
  (if l.origVerbatim then 10 else 0) +
    (if l.hasTs then 5 else 0) +
      (if l.hasRoma then 2 else 0)

/-- `highest_score = max(songs_score.get(song_info, 0) for song_info in
lyrics_results)` (`auto_fetch_sync.py` line 132), on a nonempty list;
on `[]` the Python expression raises, the value here is irrelevant. -/
def highestScore (rs : List Fetched) : ℚ :=
  match rs with
  | [] => 0
  | e :: es => es.foldl (fun m x => max m x.score) e.score

/-- The tolerance-band filter (`auto_fetch_sync.py` lines 133-137):
keep exactly the fetched entries with
`abs(score - highest_score) <= 15`. -/
def toleranceBand (rs : List Fetched) : List Fetched :=
  rs.filter fun e => decide (|e.score - highestScore rs| ≤ 15)

/-- Stable descending insertion of one entry into a rank-sorted list:
`e` is placed before the first element whose rank does not exceed its
own.  Elements of equal rank that were earlier in the original list stay
earlier, matching the documented stability of Python's `sorted`. -/
def insertByRank (e : Fetched) : List Fetched → List Fetched
  | [] => [e]
  | x :: xs =>
      if getRank x.lyr ≤ getRank e.lyr then e :: x :: xs
      else x :: insertByRank e xs

/-- Stable sort by `get_rank` descending, the model of
`sorted(lyrics_results.items(), key=lambda item: get_rank(item[1]), reverse=True)`
(`auto_fetch_sync.py` line 146).  Python's `sorted` is specified as a
stable sort, which this insertion sort is. -/
def sortByRankDesc : List Fetched → List Fetched
  | [] => []
  | x :: xs => insertByRank x (sortByRankDesc xs)

/-- `final_lyrics_list` (`auto_fetch_sync.py` line 148): the surviving
documents in quality-rank order. -/
def rankedLyrics (rs : List Fetched) : List LyrM :=
  (sortByRankDesc (toleranceBand rs)).map fun e => e.lyr

/-- The final selection walk (`auto_fetch_sync.py` lines 150-166): for
each source of the caller-supplied priority list in order, scan the
quality-ranked survivor list and return the first document whose source
matches; if no priority source matches, fall back to the top-ranked
survivor (`sorted_lyrics[0][1]`). -/
def selectLyrics (sources : List SourceM) (rs : List Fetched) : Option LyrM :=
  match sources.findSome? (fun s => (rankedLyrics rs).find? fun l => l.source == s) with
  | some l => some l
  | none => (rankedLyrics rs).head?

/-- A featureless lyric document used by the concrete score examples
(only its identity matters there). -/
def exDoc (n : Nat) : LyrM :=
  { source := SourceM.QM, origVerbatim := false, hasTs := false,
    hasRoma := false, tag := n }

/-- The spec's tolerance-band example: fetched documents with candidate
scores 90, 80, 74, 95. -/
def exScores : List Fetched :=
  [⟨90, exDoc 1⟩, ⟨80, exDoc 2⟩, ⟨74, exDoc 3⟩, ⟨95, exDoc 4⟩]

/-- End-to-end example, source1's document: verbatim original plus a
translation track (quality rank 15). -/
def e2eDoc1 : LyrM :=
  { source := SourceM.QM, origVerbatim := true, hasTs := true,
    hasRoma := false, tag := 1 }

/-- End-to-end example, source2's document: line-level only
(quality rank 0). -/
def e2eDoc2 : LyrM :=
  { source := SourceM.NE, origVerbatim := false, hasTs := false,
    hasRoma := false, tag := 2 }

/-- End-to-end example: source1's candidate scored 70, source2's 65. -/
def e2eFetched : List Fetched :=
  [⟨70, e2eDoc1⟩, ⟨65, e2eDoc2⟩]

/-- One word token `<o1,o2>text` of a Kuwo timed line, as matched by
`word_regex = <(-?\d+),(-?\d+)>([^<]*)` (`kw.py` line 173). -/
structure Tok where
  o1 : Int
  o2 : Int
  text : String
deriving DecidableEq, Repr

/-- One input line of the raw Kuwo lyric text.  A `timed` line is one
matching `^\[(\d{2}:\d{2}\.\d{3})\](.*)$` (`kw.py` line 172), with its
start time in milliseconds and its content given by its word-token
decomposition; the model covers contents that are a concatenation of
canonically rendered word tokens (the shape the Kuwo decoder emits).
A `plain` line is any line not matching the timed shape; it passes
through unchanged. -/
inductive KLine where
  | plain (s : String)
  | timed (ms : Nat) (toks : List Tok)
deriving DecidableEq, Repr

/-- The CJK test of `translation_regex = [一-龥]`
(`kw.py` line 174) on one character. -/
def isCJKChar (c : Char) : Bool :=
  decide (0x4e00 ≤ c.toNat ∧ c.toNat ≤ 0x9fa5)

/-- Whether the line content contains a CJK character
(`translation_regex.search(content)`); the token markers themselves
consist of digits and punctuation, so only token texts can match. -/
def hasCJK (toks : List Tok) : Bool :=
  toks.any fun t => t.text.data.any isCJKChar

/-- `content.startswith('<0,0>')` (`kw.py` line 196) on the canonical
token rendering: the first token exists and is `<0,0>`. -/
def headIsZeroTok : List Tok → Bool
  | [] => false
  | t :: _ => decide (t.o1 = 0 ∧ t.o2 = 0)

/-- Whitespace-only text (what Python's `str.strip` removes
completely). -/
def isWsText (s : String) : Bool :=
  s.data.all Char.isWhitespace

/-- `re.sub(r'<0,0>', '', content).strip() == ''` (`kw.py` line 188) on
the canonical token rendering: every token is `<0,0>` with
whitespace-only text (any other token leaves its marker or text
behind). -/
def isDroppedToks (toks : List Tok) : Bool :=
  toks.all fun t => decide (t.o1 = 0 ∧ t.o2 = 0) && isWsText t.text

/-- A translation line's content: starts with `<0,0>` and contains a
CJK character (`kw.py` lines 196 and 225). -/
def isTranslationToks (toks : List Tok) : Bool :=
  headIsZeroTok toks && hasCJK toks

/-- Canonical rendering of one token with `<0,0>` markers removed, as
`re.sub(r'<0,0>', '', content)` leaves it. -/
def renderTok (t : Tok) : String :=
  (if t.o1 = 0 ∧ t.o2 = 0 then ""
   else "<" ++ toString t.o1 ++ "," ++ toString t.o2 ++ ">") ++ t.text

/-- `re.sub(r'<0,0>', '', content).strip()`, the merged translation
text (`kw.py` line 226). -/
def stripZeroRender (toks : List Tok) : String :=
  (String.join (toks.map renderTok)).trim

/-- The `new_content` word sequence of one non-translation timed line
(`kw.py` lines 199-209): the first token's text carries no leading
timestamp, every later token is prefixed with its absolute time. -/
def mainWords (ms a : ℚ) : List Tok → List (Option ℚ × String)
  | [] => []
  | t :: ts =>
      (none, t.text) ::
        ts.map fun u => (some (ms + wordAbs a (u.o1, u.o2)), u.text)

/-- The `calculated_end_timestamp` of one timed line (`kw.py` lines
211-218): from the *last* token, `ls + wordAbs(last) + wordDur(last)`;
empty (`none`) when the line has no word token. -/
def mainEnd (ms a b : ℚ) : List Tok → Option ℚ
  | [] => none
  | t :: ts =>
      some (ms + wordAbs a ((lastTok t ts).o1, (lastTok t ts).o2) +
        wordDur b ((lastTok t ts).o1, (lastTok t ts).o2))

/-- The forward search for the consumed translation line's trailing
timestamp (`kw.py` lines 228-232): the start time of the *first*
following line matching the timed-line shape — whatever its content,
translation lines included. -/
def findTimedStart : List KLine → Option Nat
  | [] => none
  | KLine.timed ms _ :: _ => some ms
  | KLine.plain _ :: rest => findTimedStart rest

/-- The consumed translation line's trailing timestamp (`kw.py` lines
228-235 and 241): the next timed-shaped line's start, or the preceding
line's computed end timestamp when no such line exists. -/
def transEnd (next : Option Nat) (ms a b : ℚ) (toks : List Tok) : Option ℚ :=
  match next with
  | some n => some (n : ℚ)
  | none => mainEnd ms a b toks

/-- One output line of `_convert_kuwo_lrc`: either a pass-through plain
line, or a reconstructed timed line `[start]…` with its word sequence
(each word optionally prefixed by an absolute timestamp) and an optional
trailing end timestamp. -/
inductive OutLine where
  | plain (s : String)
  | timed (startMs : Nat) (words : List (Option ℚ × String)) (endTs : Option ℚ)
deriving DecidableEq, Repr

/-- Start time of an output line (`none` for a pass-through line). -/
def outStartMs : OutLine → Option Nat
  | OutLine.plain _ => none
  | OutLine.timed ms _ _ => some ms

/-- Trailing end timestamp of an output line. -/
def outEndTs : OutLine → Option ℚ
  | OutLine.plain _ => none
  | OutLine.timed _ _ e => e

/-- The merge test of `kw.py` lines 222-225: the next input line exists,
matches the timed-line shape, and its content is a translation
(starts with `<0,0>` and contains a CJK character). -/
def nextIsTranslation : List KLine → Bool
  | KLine.timed _ ttoks :: _ => isTranslationToks ttoks
  | _ => false

/-- The token list of the next line when it is timed (used only under
`nextIsTranslation`). -/
def nextTToks : List KLine → List Tok
  | KLine.timed _ ttoks :: _ => ttoks
  | _ => []

/-- The main conversion loop of `_convert_kuwo_lrc` (`kw.py` lines
176-245) over structured lines, with timing scales `a`, `b`:
non-timed lines pass through; a timed line whose content strips to
empty is dropped; a translation line reached directly is consumed
silently (the `if not is_translation_line` block is skipped); any other
timed line emits its reconstructed word timing, and when the
immediately following line is a timed translation line, that line is
consumed (`i += 1`, hence the recursion continues on `rest.tail`) and
emitted as a second output line sharing the same start timestamp, with
its trailing timestamp from `findTimedStart`/`transEnd` searched from
two lines ahead. -/
def convertKuwoLrc (a b : ℚ) : List KLine → List OutLine
  | [] => []
  | KLine.plain s :: rest => OutLine.plain s :: convertKuwoLrc a b rest
  | KLine.timed ms toks :: rest =>
      if isDroppedToks toks then convertKuwoLrc a b rest
      else if isTranslationToks toks then convertKuwoLrc a b rest
      else if nextIsTranslation rest then
        OutLine.timed ms (mainWords (ms : ℚ) a toks) (mainEnd (ms : ℚ) a b toks) ::
          OutLine.timed ms [(none, stripZeroRender (nextTToks rest))]
            (transEnd (findTimedStart rest.tail) (ms : ℚ) a b toks) ::
          convertKuwoLrc a b rest.tail
      else
        OutLine.timed ms (mainWords (ms : ℚ) a toks) (mainEnd (ms : ℚ) a b toks) ::
          convertKuwoLrc a b rest
termination_by l => l.length
decreasing_by all_goals simp [List.length_tail] <;> omega

/-- The input of the C3 counterexample: a timed line, its translation,
a *second* translation line, and a later plain timed line. -/
def cexKuwoLines : List KLine :=
  [KLine.timed 1000 [⟨10, 10, "hi"⟩],
   KLine.timed 1100 [⟨0, 0, "中"⟩],
   KLine.timed 5000 [⟨0, 0, "文"⟩],
   KLine.timed 9000 [⟨10, 10, "yo"⟩]]

/-- Outcome of a blocking HTTP request made inside an adapter: either
the request machinery raises (`fail`, caught as
`requests.exceptions.RequestException` / `raise_for_status`), or it
yields a value. -/
inductive Net (α : Type) where
  | fail : Net α
  | ok : α → Net α

/-- The `SearchType` enumeration; the Kuwo adapter supports only
`SONG` and rejects everything else (`kw.py` lines 22-23). -/
inductive SearchTy where
  | song
  | album
  | songlist
  | lyrics
deriving DecidableEq, Repr

/-- One row of the Kuwo search response's `abslist` as the adapter
reads it (`kw.py` lines 47-59), with the `DURATION` field already put
through `int(...)`: `none` models a value whose parse raises
(`ValueError`/`TypeError`), which the code replaces by 0. -/
structure KWRow where
  songname : String
  artist : String
  album : String
  durSec : Option Int
  targetId : String

/-- The parsed JSON body of the Kuwo search response as the adapter
reads it: the optional `abslist` array and the `TOTAL` count. -/
structure KWData where
  abslist : Option (List KWRow)
  total : Nat

/-- A search result row, `SongInfo(source=Source.KW, …)` with the
duration scaled to milliseconds (`kw.py` lines 53-60). -/
structure SongInfoM where
  source : SourceM
  title : String
  artist : String
  album : String
  duration : Int
  id : String

/-- `search` (`kw.py` lines 20-72) with the HTTP outcome as a
parameter: `none` for an unsupported search type, for a network failure
(`RequestException`), and for a malformed non-JSON body (`ValueError`
from `response.json()`, modelled `Net.ok none`); otherwise the rows of
`abslist` (missing key: no rows) and the pagination range
`(start, end, total)` with the fixed page size 30 and 1-based `page`.
The keyword only flows into the request and the result metadata and is
omitted. -/
def searchKW (st : SearchTy) (page : Nat) (resp : Net (Option KWData)) :
    Option (List SongInfoM × (Nat × Nat × Nat)) :=
  if st ≠ SearchTy.song then none
  else
    match resp with
    | Net.fail => none
    | Net.ok none => none
    | Net.ok (some data) =>
        let results := (data.abslist.getD []).map fun r =>
          { source := SourceM.KW, title := r.songname, artist := r.artist,
            album := r.album, duration := r.durSec.getD 0 * 1000,
            id := r.targetId }
        let startIdx := (page - 1) * 30
        let endIdx :=
          if results.isEmpty then startIdx
          else startIdx + results.length - 1
        some (results, (startIdx, endIdx, data.total))

/-- The ASCII bytes of the `tp=content` marker. -/
def tpMarker : List Nat := [116, 112, 61, 99, 111, 110, 116, 101, 110, 116]

/-- `buf.startswith(b"tp=content")` (`kw.py` line 132). -/
def hasTpMarker (buf : List Nat) : Bool := tpMarker.isPrefixOf buf

/-- `buf.index(b"\r\n\r\n")` (`kw.py` line 136): index of the first
occurrence of CR LF CR LF, or `none` when there is none (Python raises
`ValueError`, caught by the surrounding `except`). -/
def findCrlf2 : List Nat → Option Nat
  | a :: b :: c :: d :: rest =>
      if a = 13 ∧ b = 10 ∧ c = 13 ∧ d = 10 then some 0
      else (findCrlf2 (b :: c :: d :: rest)).map (· + 1)
  | _ => none

/-- `_decode_lyrics` (`kw.py` lines 131-155).  The external
collaborators — zlib inflate (fallible), the best-effort UTF-8 and
GB18030 decoders and the base64 decoder — are parameters.  Returns `""`
for a payload missing the `tp=content` marker, missing the CRLFCRLF
separator, or failing decompression; otherwise, in word-level mode,
decodes UTF-8 → base64 → cyclic-key XOR → GB18030, and in plain mode
GB18030 directly. -/
def decodeLyricsKW (inflate : List Nat → Option (List Nat))
    (utf8d : List Nat → String) (b64d : String → List Nat)
    (gbd : List Nat → String) (isLyricx : Bool) (buf : List Nat) : String :=
  if ¬ hasTpMarker buf then ""
  else
    match findCrlf2 buf with
    | none => ""
    | some idx =>
        match inflate (buf.drop (idx + 4)) with
        | none => ""
        | some inflated =>
            if ¬ isLyricx then gbd inflated
            else gbd (xorTransform (b64d (utf8d inflated)))

/-- Value of a decimal digit character. -/
def decDigitVal (c : Char) : Option Nat :=
  if '0' ≤ c ∧ c ≤ '9' then some (c.toNat - 48) else none

/-- Digit tail of Python's `int(s)`: digits possibly separated by
single underscores (Python accepts `"1_0"` but rejects doubled,
leading or trailing underscores). -/
def parseDecCore (acc : Nat) : List Char → Option Nat
  | [] => some acc
  | '_' :: c :: cs =>
      match decDigitVal c with
      | none => none
      | some d => parseDecCore (acc * 10 + d) cs
  | c :: cs =>
      match decDigitVal c with
      | none => none
      | some d => parseDecCore (acc * 10 + d) cs

/-- First digit of Python's `int(s)` (must exist and be a digit). -/
def parseDecStart : List Char → Option Nat
  | [] => none
  | c :: cs =>
      match decDigitVal c with
      | none => none
      | some d => parseDecCore d cs

/-- The semantics of Python's `int(s)` on a string (`kw.py` line 81):
optional surrounding whitespace, an optional sign, then digits with
optional single underscore separators; `none` when the parse fails
(`ValueError`). -/
def parsePyInt (s : String) : Option Int :=
  match ((s.data.dropWhile Char.isWhitespace).reverse.dropWhile
      Char.isWhitespace).reverse with
  | [] => none
  | '+' :: rest => (parseDecStart rest).map fun n => (n : Int)
  | '-' :: rest => (parseDecStart rest).map fun n => -(n : Int)
  | rest => (parseDecStart rest).map fun n => (n : Int)

/-- `_fetch_and_convert_kuwo_lrc` (`kw.py` lines 248-265) with the HTTP
outcome and the external decoders as parameters; `convert` stands for
the raw-text wrapper around the structured `convertKuwoLrc` conversion:
`none` on network failure or an empty decode, otherwise the converted
word-level LRC text. -/
def fetchConvertKW (inflate : List Nat → Option (List Nat))
    (utf8d : List Nat → String) (b64d : String → List Nat)
    (gbd : List Nat → String) (convert : String → String)
    (resp : Net (List Nat)) : Option String :=
  match resp with
  | Net.fail => none
  | Net.ok buf =>
      let d := decodeLyricsKW inflate utf8d b64d gbd true buf
      if d = "" then none else some (convert d)

/-- `get_lyrics` (`kw.py` lines 75-98): `none` for a missing (empty)
id, for an id that does not parse as a decimal integer, and for a
failed fetch or decode; otherwise the lyric text (the downstream
`lrc2mdata` / `Lyrics` assembly is the excluded generic document
model).  The fetch outcome is a parameter, so independence of the
result from it in the id-failure cases expresses that no fetch is
attempted there. -/
def getLyricsKW (inflate : List Nat → Option (List Nat))
    (utf8d : List Nat → String) (b64d : String → List Nat)
    (gbd : List Nat → String) (convert : String → String)
    (songId : String) (resp : Net (List Nat)) : Option String :=
  if songId = "" then none
  else
    match parsePyInt songId with
    | none => none
    | some _ => fetchConvertKW inflate utf8d b64d gbd convert resp

/- ================================================================== -/
/- Theorems                                                            -/
/- ================================================================== -/

/-- Helper: a fold of `max` over scores is at least its initial value. -/
theorem foldl_max_init_le (l : List Fetched) (a : ℚ) :
    a ≤ l.foldl (fun m x => max m x.score) a := by
  induction l generalizing a with
  | nil => simp
  | cons x xs ih =>
      simp only [List.foldl]
      exact le_trans (le_max_left a x.score) (ih (max a x.score))

/-- Helper: every member's score is at most the `max` fold. -/
theorem mem_le_foldl_max (l : List Fetched) (a : ℚ) (e : Fetched)
    (he : e ∈ l) : e.score ≤ l.foldl (fun m x => max m x.score) a := by
  induction l generalizing a with
  | nil => cases he
  | cons x xs ih =>
      simp only [List.foldl]
      rcases List.mem_cons.mp he with h | h
      · subst h
        exact le_trans (le_max_right a e.score)
          (foldl_max_init_le xs (max a e.score))
      · exact ih (max a x.score) h

/-- Helper: no fetched entry scores above `highest_score`
(`auto_fetch_sync.py` line 132). -/
theorem le_highestScore (rs : List Fetched) (e : Fetched) (he : e ∈ rs) :
    e.score ≤ highestScore rs := by
  match rs, he with
  | x :: xs, he =>
      rcases List.mem_cons.mp he with h | h
      · subst h
        exact foldl_max_init_le xs e.score
      · exact mem_le_foldl_max xs x.score e h

/-- C4: the Kuwo XOR stream cipher with the fixed key `"yeelion"` and
key index `i mod keylen` is self-inverse: applying the transform twice
with the same alignment restores every byte sequence, and the fixed key
is indeed the byte sequence of `"yeelion"`. -/
theorem xor_cipher_self_inverse :
    (∀ x : List Nat, xorTransform (xorTransform x) = x) ∧
    "yeelion".data.map Char.toNat = KEY := by
  constructor
  · intro x
    have h : ∀ (l : List Nat) (i : Nat), xorWith i (xorWith i l) = l := by
      intro l
      induction l with
      | nil => intro i; rfl
      | cons b bs ih =>
          intro i
          simp only [xorWith, ih]
          congr 1
          rw [Nat.xor_assoc, Nat.xor_self, Nat.xor_zero]
    exact h x 0
  · rfl

/-- C1 (counterexample): the tolerance band of `auto_fetch_sync.py`
lines 132-137 is the closed interval `[max − 15, max]`, not the
half-open `(max − 15, max]` the claim states: in the claim's own example
(scores 90, 80, 74, 95, maximum 95) the document with score 80 satisfies
`abs(80 − 95) = 15 ≤ 15` and therefore survives, contradicting the
claimed surviving set `{90, 95}`. -/
theorem toleranceBand_keeps_80_cex :
    highestScore exScores = 95 ∧
      Fetched.mk 80 (exDoc 2) ∈ toleranceBand exScores := by
  constructor
  · norm_num [highestScore, exScores]
  · norm_num [toleranceBand, highestScore, exScores, List.filter]

/-- C1 (amended): after computing the maximum candidate score among
candidates that yielded a lyric document, exactly those documents whose
candidate score lies in the closed tolerance band `[max − 15, max]`
survive; for fetched documents with candidate scores 90, 80, 74, 95
(max 95) the surviving set is exactly `{90, 80, 95}` and only the
document with score 74 is discarded. -/
theorem toleranceBand_closed_band :
    (∀ rs e, e ∈ toleranceBand rs ↔
      e ∈ rs ∧ highestScore rs - e.score ≤ 15) ∧
    toleranceBand exScores = [⟨90, exDoc 1⟩, ⟨80, exDoc 2⟩, ⟨95, exDoc 4⟩] := by
  constructor
  · intro rs e
    simp only [toleranceBand, List.mem_filter, decide_eq_true_eq]
    constructor
    · rintro ⟨hm, hle⟩
      refine ⟨hm, ?_⟩
      rwa [abs_sub_comm,
        abs_of_nonneg (sub_nonneg.mpr (le_highestScore rs e hm))] at hle
    · rintro ⟨hm, hle⟩
      refine ⟨hm, ?_⟩
      rwa [abs_sub_comm,
        abs_of_nonneg (sub_nonneg.mpr (le_highestScore rs e hm))]
  · norm_num [toleranceBand, highestScore, exScores, List.filter]

/-- C2 (counterexample): a candidate with unknown duration is *not*
kept regardless of the query's duration: with query duration 200000 ms
and no candidate duration, the sentinel `-8` makes the gate compute
`abs(200000 − (−8)) = 200008 > 4000` and discard the candidate
(`auto_fetch_sync.py` line 84). -/
theorem durationGate_unknown_candidate_cex :
    durationGateDiscards (some 200000) none = true := by decide

/-- C2 (amended): the duration gate never discards when the query
duration is unknown (or zero, which Python treats as falsy); when the
query duration `q ≠ 0` is known, the candidate is discarded iff
`abs(q − r') > 4000` where `r'` is the candidate duration with unknown
or zero replaced by the sentinel `−8` — so a candidate with unknown
duration *is* discarded whenever the query duration exceeds 3992 ms; in
particular query 200000 ms vs candidate 205000 ms is discarded, and so
is query 200000 ms vs an unknown candidate duration. -/
theorem durationGate_sentinel_behavior :
    (∀ r, durationGateDiscards none r = false) ∧
    (∀ r, durationGateDiscards (some 0) r = false) ∧
    (∀ q r, q ≠ 0 →
      (durationGateDiscards (some q) r = true ↔
        4000 < (q - sentinelDur r (-8)).natAbs)) ∧
    durationGateDiscards (some 200000) (some 205000) = true ∧
    durationGateDiscards (some 200000) none = true := by
  refine ⟨fun r => rfl, fun r => by simp [durationGateDiscards], ?_, by decide, by decide⟩
  intro q r hq
  simp [durationGateDiscards, sentinelDur, hq]

/-- C2 (witness): the amended characterization applied at the concrete
pair (query 200000 ms, candidate 205000 ms). -/
theorem durationGate_sentinel_behavior_witness :
    durationGateDiscards (some 200000) (some 205000) = true :=
  (durationGate_sentinel_behavior.2.2.1 200000 (some 205000)
    (by decide)).mpr (by decide)

/-- C6: the `[kuwo:<digits>]` tag value is parsed base-8 and split with
integer division into `scaleA = value / 10`, `scaleB = value % 10`, with
both reset to 1 when either is zero; in particular `"010"` parses to 8,
giving `scaleA = 0`, `scaleB = 8`, and the zero guard yields `(1, 1)`
(`kw.py` lines 163-170). -/
theorem kuwoTag_octal_zero_guard :
    parseOct "010" = some 8 ∧
    8 / 10 = 0 ∧ 8 % 10 = 8 ∧
    kuwoScales 8 = (1, 1) ∧
    (∀ v, v / 10 = 0 ∨ v % 10 = 0 → kuwoScales v = (1, 1)) ∧
    (∀ v, v / 10 ≠ 0 → v % 10 ≠ 0 → kuwoScales v = (v / 10, v % 10)) := by
  refine ⟨by decide, by decide, by decide, by decide, ?_, ?_⟩
  · intro v h
    simp only [kuwoScales]
    rw [if_pos h]
  · intro v h1 h2
    simp [kuwoScales, h1, h2]

/-- C6 (witness): the zero guard applied at `v = 8` and the no-guard
branch applied at `v = 37`. -/
theorem kuwoTag_octal_zero_guard_witness :
    kuwoScales 8 = (1, 1) ∧ kuwoScales 37 = (3, 7) :=
  ⟨kuwoTag_octal_zero_guard.2.2.2.2.1 8 (by decide),
    (kuwoTag_octal_zero_guard.2.2.2.2.2 37 (by decide) (by decide) :
      kuwoScales 37 = (3, 7))⟩

/-- C8: in structured-keyword scoring, whenever `titleScore < 30` the
final score is `max(0, composite − 35)`, hence never negative
(`auto_fetch_sync.py` lines 96-97). -/
theorem combineScore_low_title_penalty :
    ∀ t a b, t < 30 →
      combineScore t a b = max 0 (rawCombined t a b - 35) ∧
        0 ≤ combineScore t a b := by
  intro t a b ht
  constructor
  · simp [combineScore, ht]
  · simp only [combineScore, if_pos ht]
    exact le_max_left 0 _

/-- C8 (witness): the penalty at `titleScore = 25` with an artist score
of 80 and no album score: the composite 52.5 becomes 17.5 ≥ 0. -/
theorem combineScore_low_title_penalty_witness :
    combineScore 25 (some 80) none = max 0 (rawCombined 25 (some 80) none - 35) ∧
      0 ≤ combineScore 25 (some 80) none :=
  combineScore_low_title_penalty 25 (some 80) none (by norm_num)

/-- Helper: membership in a stable rank insertion. -/
theorem mem_insertByRank (e x : Fetched) (l : List Fetched) :
    x ∈ insertByRank e l ↔ x = e ∨ x ∈ l := by
  induction l with
  | nil => simp [insertByRank]
  | cons y ys ih =>
      simp only [insertByRank]
      by_cases h : getRank y.lyr ≤ getRank e.lyr
      · rw [if_pos h]
        simp only [List.mem_cons]
      · rw [if_neg h]
        simp only [List.mem_cons, ih]
        tauto

/-- Helper: inserting into a rank-descending list keeps it descending. -/
theorem pairwise_insertByRank (e : Fetched) (l : List Fetched)
    (hl : l.Pairwise fun a b => getRank b.lyr ≤ getRank a.lyr) :
    (insertByRank e l).Pairwise fun a b => getRank b.lyr ≤ getRank a.lyr := by
  induction l with
  | nil => simp [insertByRank]
  | cons y ys ih =>
      rcases List.pairwise_cons.mp hl with ⟨hy, hys⟩
      simp only [insertByRank]
      by_cases h : getRank y.lyr ≤ getRank e.lyr
      · rw [if_pos h]
        refine List.pairwise_cons.mpr ⟨?_, hl⟩
        intro b hb
        rcases List.mem_cons.mp hb with hb | hb
        · subst hb; exact h
        · exact le_trans (hy b hb) h
      · rw [if_neg h]
        refine List.pairwise_cons.mpr ⟨?_, ih hys⟩
        intro b hb
        rcases (mem_insertByRank e b ys).mp hb with hb | hb
        · subst hb; exact le_of_not_le h
        · exact hy b hb

/-- Helper: `sortByRankDesc` produces a rank-descending list. -/
theorem pairwise_sortByRankDesc (l : List Fetched) :
    (sortByRankDesc l).Pairwise fun a b => getRank b.lyr ≤ getRank a.lyr := by
  induction l with
  | nil => simp [sortByRankDesc]
  | cons x xs ih => exact pairwise_insertByRank x (sortByRankDesc xs) ih

/-- C5: the final selection walks the caller-supplied source-priority
list in order and returns the first quality-ranked surviving document
whose source matches; in the end-to-end scenario (source1 = QM scoring
70 with a verbatim+translation document, source2 = NE scoring 65 with a
line-level document, priority `[NE, QM]`) the NE document wins over the
higher-quality QM one; when no priority source appears among the
survivors the top quality-ranked survivor is returned, and the head of
the quality ranking has maximal rank (`auto_fetch_sync.py` lines
139-166). -/
theorem selection_priority_walk :
    selectLyrics [SourceM.NE, SourceM.QM] e2eFetched = some e2eDoc2 ∧
    (∀ sources rs, (∀ s ∈ sources, ∀ l ∈ rankedLyrics rs, l.source ≠ s) →
      selectLyrics sources rs = (rankedLyrics rs).head?) ∧
    (∀ rs h, (rankedLyrics rs).head? = some h →
      ∀ l ∈ rankedLyrics rs, getRank l ≤ getRank h) := by
  refine ⟨?_, ?_, ?_⟩
  · have hr : rankedLyrics e2eFetched = [e2eDoc1, e2eDoc2] := by
      norm_num [rankedLyrics, sortByRankDesc, insertByRank, toleranceBand,
        highestScore, getRank, e2eFetched, e2eDoc1, e2eDoc2, List.filter]
    simp only [selectLyrics, hr]
    decide
  · intro sources rs hns
    have hnone : (sources.findSome? fun s =>
        (rankedLyrics rs).find? fun l => l.source == s) = none := by
      refine List.findSome?_eq_none_iff.mpr ?_
      intro s hs
      refine List.find?_eq_none.mpr ?_
      intro l hl
      simpa using hns s hs l hl
    simp [selectLyrics, hnone]
  · intro rs h hh l hl
    have hp : (rankedLyrics rs).Pairwise fun a b => getRank b ≤ getRank a := by
      unfold rankedLyrics
      exact List.Pairwise.map _ (fun a b hab => hab) (pairwise_sortByRankDesc _)
    match hm : rankedLyrics rs, hh, hl with
    | x :: xs, hh, hl =>
        rw [hm] at hp
        simp only [List.head?_cons, Option.some.injEq] at hh
        subst hh
        rcases List.mem_cons.mp hl with h1 | h1
        · subst h1; exact le_refl _
        · exact (List.pairwise_cons.mp hp).1 l h1

/-- C5 (witness): with priority list `[KW]` and survivors only from QM
and NE, the fallback clause applies and returns the quality-ranked head. -/
theorem selection_priority_walk_witness :
    selectLyrics [SourceM.KW] e2eFetched = (rankedLyrics e2eFetched).head? :=
  selection_priority_walk.2.1 [SourceM.KW] e2eFetched (by
    have hr : rankedLyrics e2eFetched = [e2eDoc1, e2eDoc2] := by
      norm_num [rankedLyrics, sortByRankDesc, insertByRank, toleranceBand,
        highestScore, getRank, e2eFetched, e2eDoc1, e2eDoc2, List.filter]
    intro s hs l hl
    rw [hr] at hl
    simp only [List.mem_singleton] at hs
    subst hs
    rcases List.mem_cons.mp hl with h1 | h1
    · subst h1; simp [e2eDoc1]
    · simp only [List.mem_singleton] at h1
      subst h1; simp [e2eDoc2])

/-- Helper: word start offsets are nonnegative (they are absolute values
divided by a positive scale). -/
theorem wordAbs_nonneg (a : ℚ) (ha : 0 < a) (t : Int × Int) :
    0 ≤ wordAbs a t :=
  div_nonneg (abs_nonneg _) (by positivity)

/-- Helper: word durations are nonnegative. -/
theorem wordDur_nonneg (b : ℚ) (hb : 0 < b) (t : Int × Int) :
    0 ≤ wordDur b t :=
  div_nonneg (abs_nonneg _) (by positivity)

/-- Helper: `wordAbs` is monotone in the token's offset sum. -/
theorem wordAbs_mono (a : ℚ) (ha : 0 < a) (u v : Int × Int)
    (h : |u.1 + u.2| ≤ |v.1 + v.2|) : wordAbs a u ≤ wordAbs a v := by
  unfold wordAbs
  refine (div_le_div_iff_of_pos_right (by positivity)).mpr ?_
  exact_mod_cast h

/-- Helper: `lastTok` shifts along the list. -/
theorem lastTok_cons {α : Type} (t u : α) (us : List α) :
    lastTok t (u :: us) = lastTok u us := rfl

/-- Helper: the tail of one emitted line (every token-after-the-first
timestamp followed by the trailing end timestamp) is non-decreasing when
the token offset sums are non-decreasing. -/
theorem emittedTail_chain (a b : ℚ) (ha : 0 < a) (hb : 0 < b) (ls : ℚ) :
    ∀ (prev : Int × Int) (rest : List (Int × Int)),
      List.Chain' (fun u v : Int × Int => |u.1 + u.2| ≤ |v.1 + v.2|) (prev :: rest) →
      List.Chain' (· ≤ ·)
        ((rest.map fun u => ls + wordAbs a u) ++
          [ls + wordAbs a (lastTok prev rest) + wordDur b (lastTok prev rest)]) := by
  intro prev rest
  induction rest generalizing prev with
  | nil => intro _; simp
  | cons u us ih =>
      intro h
      simp only [List.map_cons, List.cons_append, lastTok_cons]
      refine List.chain'_cons'.mpr ⟨?_, ih u h.tail⟩
      intro y hy
      cases us with
      | nil =>
          simp only [List.map_nil, List.nil_append, List.head?_cons,
            Option.mem_def, Option.some.injEq] at hy
          subst hy
          simp only [lastTok]
          have h1 : wordAbs a u ≤ wordAbs a u + wordDur b u :=
            le_add_of_nonneg_right (wordDur_nonneg b hb u)
          linarith
      | cons v vs =>
          simp only [List.map_cons, List.cons_append, List.head?_cons,
            Option.mem_def, Option.some.injEq] at hy
          subst hy
          have hs : |u.1 + u.2| ≤ |v.1 + v.2| :=
            (List.chain'_cons.mp h.tail).1
          have := wordAbs_mono a ha u v hs
          linarith

/-- C9 (counterexample): Kuwo timing reconstruction is *not* monotonic
for every timed line: for a line starting at 1000 ms with word tokens
`<0,0>…<1000,1000>…<0,0>…` (scales 1, 1), the emitted absolute times
are 1000, 2000, 1000, 1000, which decrease at the third position. -/
theorem emittedTimes_not_monotonic_cex :
    emittedTimes 1000 1 1 [(0, 0), (1000, 1000), (0, 0)] =
      [1000, 2000, 1000, 1000] ∧
    ¬ List.Chain' (· ≤ ·)
      (emittedTimes 1000 1 1 [(0, 0), (1000, 1000), (0, 0)]) := by
  have h : emittedTimes 1000 1 1 [(0, 0), (1000, 1000), (0, 0)] =
      [1000, 2000, 1000, 1000] := by
    norm_num [emittedTimes, wordAbs, wordDur, lastTok]
  refine ⟨h, ?_⟩
  rw [h]
  simp only [List.chain'_cons, List.chain'_singleton, and_true]
  norm_num

/-- C9 (amended): Kuwo timing reconstruction is deterministic (it is a
pure function of the line), and for every timed line whose word tokens
have non-decreasing offset sums `|offsetA + offsetB|` in source order —
and positive timing scales, as produced by the zero-guarded
`[kuwo:…]` parsing — the emitted sequence (line start timestamp, the
computed timestamps of each token after the first in source order, and
the trailing end timestamp) is non-decreasing. -/
theorem emittedTimes_monotonic :
    ∀ (ls a b : ℚ), 0 < a → 0 < b →
      ∀ toks : List (Int × Int),
        List.Chain' (fun u v : Int × Int => |u.1 + u.2| ≤ |v.1 + v.2|) toks →
        List.Chain' (· ≤ ·) (emittedTimes ls a b toks) := by
  intro ls a b ha hb toks h
  cases toks with
  | nil => simp [emittedTimes]
  | cons t ts =>
      simp only [emittedTimes]
      refine List.chain'_cons'.mpr ⟨?_, emittedTail_chain a b ha hb ls t ts h⟩
      intro y hy
      cases ts with
      | nil =>
          simp only [List.map_nil, List.nil_append, List.head?_cons,
            Option.mem_def, Option.some.injEq] at hy
          subst hy
          have h1 := wordAbs_nonneg a ha (lastTok t [])
          have h2 := wordDur_nonneg b hb (lastTok t [])
          linarith
      | cons v vs =>
          simp only [List.map_cons, List.cons_append, List.head?_cons,
            Option.mem_def, Option.some.injEq] at hy
          subst hy
          have h1 := wordAbs_nonneg a ha v
          linarith

/-- C9 (witness): the amended monotonicity applied to a concrete line at
0 ms with tokens of offset sums 2 and 8 and scales 1, 1. -/
theorem emittedTimes_monotonic_witness :
    List.Chain' (· ≤ ·) (emittedTimes 0 1 1 [(0, 2), (4, 4)]) :=
  emittedTimes_monotonic 0 1 1 (by norm_num) (by norm_num)
    [(0, 2), (4, 4)]
    (by simp only [List.chain'_cons, List.chain'_singleton, and_true]; decide)

/-- C3 (counterexample): the trailing timestamp of a merged translation
line is *not* found by "searching forward past any further translation
lines": in `cexKuwoLines` the line `[00:01.000]<10,10>hi` merges the
translation `<0,0>中`, and the forward search stops at the very next
timed-shaped line `[00:05.000]<0,0>文` — itself a translation line —
giving the merged line a trailing timestamp of 5000 ms, not the 9000 ms
start of the next non-translation timed line as the claim requires. -/
theorem kuwoMerge_forward_search_cex :
    (convertKuwoLrc 1 1 cexKuwoLines).map outStartMs =
      [some 1000, some 1000, some 9000] ∧
    (convertKuwoLrc 1 1 cexKuwoLines).map outEndTs =
      [some 1010, some 5000, some 9010] ∧
    isTranslationToks [⟨0, 0, "文"⟩] = true ∧
    findTimedStart
      [KLine.timed 5000 [⟨0, 0, "文"⟩], KLine.timed 9000 [⟨10, 10, "yo"⟩]] =
      some 5000 := by
  have hd0 : isDroppedToks [⟨10, 10, "hi"⟩] = false := rfl
  have ht0 : isTranslationToks [⟨10, 10, "hi"⟩] = false := rfl
  have ht1 : isTranslationToks [⟨0, 0, "中"⟩] = true := rfl
  have ht2 : isTranslationToks [⟨0, 0, "文"⟩] = true := rfl
  have hd2 : isDroppedToks [⟨0, 0, "文"⟩] = false := rfl
  have hd3 : isDroppedToks [⟨10, 10, "yo"⟩] = false := rfl
  have ht3 : isTranslationToks [⟨10, 10, "yo"⟩] = false := rfl
  refine ⟨?_, ?_, ht2, rfl⟩ <;>
    simp only [cexKuwoLines, convertKuwoLrc, nextIsTranslation, nextTToks,
      findTimedStart, List.tail_cons, hd0, ht0, ht1, ht2, hd2, hd3, ht3,
      Bool.false_eq_true, if_false, if_true, ite_false, ite_true,
      List.map_cons, List.map_nil, outStartMs, outEndTs, transEnd, mainEnd,
      lastTok]
  all_goals norm_num [wordAbs, wordDur]

/-- C3 (amended): a translation line (content starting with `<0,0>` and
containing a CJK character) immediately following a non-dropped,
non-translation timed line is merged into that line's output as a
second emitted line sharing the same start timestamp and is consumed
(the loop continues after it, so it is not re-emitted); its trailing
timestamp is the start time of the *first* following line of timed
shape — translation lines included — or, when none exists, the
preceding line's computed end timestamp; a translation line reached
directly (not consumed by a merge) produces no output at all. -/
theorem kuwoMerge_behavior :
    (∀ (a b : ℚ) (ms tms : Nat) (toks ttoks : List Tok) (rest : List KLine),
      isDroppedToks toks = false → isTranslationToks toks = false →
      isTranslationToks ttoks = true →
      convertKuwoLrc a b (KLine.timed ms toks :: KLine.timed tms ttoks :: rest) =
        OutLine.timed ms (mainWords (ms : ℚ) a toks) (mainEnd (ms : ℚ) a b toks) ::
          OutLine.timed ms [(none, stripZeroRender ttoks)]
            (transEnd (findTimedStart rest) (ms : ℚ) a b toks) ::
          convertKuwoLrc a b rest) ∧
    (∀ (a b : ℚ) (ms : Nat) (toks : List Tok) (rest : List KLine),
      isTranslationToks toks = true →
      convertKuwoLrc a b (KLine.timed ms toks :: rest) =
        convertKuwoLrc a b rest) := by
  constructor
  · intro a b ms tms toks ttoks rest h1 h2 h3
    simp only [convertKuwoLrc, nextIsTranslation, nextTToks, List.tail_cons,
      h1, h2, h3, Bool.false_eq_true, if_false, if_true, ite_false, ite_true]
  · intro a b ms toks rest h
    cases hd : isDroppedToks toks
    · simp only [convertKuwoLrc, hd, h, Bool.false_eq_true, if_false,
        ite_false, ite_true, if_true]
    · simp only [convertKuwoLrc, hd, ite_true, if_true]

/-- C3 (witness): the merge clause applied to the concrete pair
`[00:01.000]<10,10>hi` followed by the translation
`[00:01.100]<0,0>中` with nothing after them: the translation is
emitted as a second line at start 1000 ms and, with no further timed
line, its trailing timestamp falls back to the preceding line's
computed end (`transEnd` of `findTimedStart [] = none`). -/
theorem kuwoMerge_behavior_witness :
    convertKuwoLrc 1 1
        [KLine.timed 1000 [⟨10, 10, "hi"⟩], KLine.timed 1100 [⟨0, 0, "中"⟩]] =
      OutLine.timed 1000 (mainWords 1000 1 [⟨10, 10, "hi"⟩])
          (mainEnd 1000 1 1 [⟨10, 10, "hi"⟩]) ::
        OutLine.timed 1000 [(none, stripZeroRender [⟨0, 0, "中"⟩])]
          (transEnd (findTimedStart []) 1000 1 1 [⟨10, 10, "hi"⟩]) ::
        convertKuwoLrc 1 1 [] :=
  kuwoMerge_behavior.1 1 1 1000 1100 [⟨10, 10, "hi"⟩] [⟨0, 0, "中"⟩] []
    rfl rfl rfl

/-- C7: the Kuwo adapter returns absent (`None`) rather than raising
for its ordinary failure modes: `search` for an unsupported search
type, a network failure, or a malformed (non-JSON) response;
`get_lyrics` for a missing id, a network error, or an empty/undecodable
payload — in particular `_decode_lyrics` yields the empty string when
the `tp=content` marker is missing, when the CRLFCRLF separator is
missing, and when decompression fails, each of which makes
`get_lyrics` return absent (`kw.py` lines 20-43, 75-98, 131-140,
248-265). -/
theorem adapter_absent_on_failure :
    (∀ (st : SearchTy) (page : Nat) (resp : Net (Option KWData)),
      st ≠ SearchTy.song → searchKW st page resp = none) ∧
    (∀ page, searchKW SearchTy.song page Net.fail = none) ∧
    (∀ page, searchKW SearchTy.song page (Net.ok none) = none) ∧
    (∀ inflate utf8d b64d gbd convert resp,
      getLyricsKW inflate utf8d b64d gbd convert "" resp = none) ∧
    (∀ inflate utf8d b64d gbd convert songId,
      getLyricsKW inflate utf8d b64d gbd convert songId Net.fail = none) ∧
    (∀ inflate utf8d b64d gbd convert songId buf,
      decodeLyricsKW inflate utf8d b64d gbd true buf = "" →
      getLyricsKW inflate utf8d b64d gbd convert songId (Net.ok buf) = none) ∧
    (∀ inflate utf8d b64d gbd lx buf, hasTpMarker buf = false →
      decodeLyricsKW inflate utf8d b64d gbd lx buf = "") ∧
    (∀ inflate utf8d b64d gbd lx buf, findCrlf2 buf = none →
      decodeLyricsKW inflate utf8d b64d gbd lx buf = "") ∧
    (∀ inflate utf8d b64d gbd lx buf idx, findCrlf2 buf = some idx →
      inflate (buf.drop (idx + 4)) = none →
      decodeLyricsKW inflate utf8d b64d gbd lx buf = "") := by
  refine ⟨?_, ?_, ?_, ?_, ?_, ?_, ?_, ?_, ?_⟩
  · intro st page resp hst
    simp [searchKW, hst]
  · intro page; rfl
  · intro page; rfl
  · intro inflate utf8d b64d gbd convert resp
    simp [getLyricsKW]
  · intro inflate utf8d b64d gbd convert songId
    by_cases hi : songId = ""
    · simp [getLyricsKW, hi]
    · simp only [getLyricsKW, if_neg hi]
      cases parsePyInt songId <;> simp [fetchConvertKW]
  · intro inflate utf8d b64d gbd convert songId buf hd
    by_cases hi : songId = ""
    · simp [getLyricsKW, hi]
    · simp only [getLyricsKW, if_neg hi]
      cases parsePyInt songId <;> simp [fetchConvertKW, hd]
  · intro inflate utf8d b64d gbd lx buf hm
    simp [decodeLyricsKW, hm]
  · intro inflate utf8d b64d gbd lx buf hc
    by_cases hm : hasTpMarker buf
    · simp [decodeLyricsKW, hm, hc]
    · simp [decodeLyricsKW, hm]
  · intro inflate utf8d b64d gbd lx buf idx hc hz
    by_cases hm : hasTpMarker buf
    · simp [decodeLyricsKW, hm, hc, hz]
    · simp [decodeLyricsKW, hm]

/-- C7 (witness): the unsupported-search-type clause at `ALBUM`, the
decode clauses at the concrete payload `[0]` (no `tp=content` marker)
with concrete collaborator functions, and the empty-id clause. -/
theorem adapter_absent_on_failure_witness :
    searchKW SearchTy.album 1 Net.fail = none ∧
    decodeLyricsKW (fun _ => none) (fun _ => "") (fun _ => []) (fun _ => "")
      true [0] = "" ∧
    getLyricsKW (fun _ => none) (fun _ => "") (fun _ => []) (fun _ => "")
      (fun s => s) "" Net.fail = none :=
  ⟨adapter_absent_on_failure.1 SearchTy.album 1 Net.fail (by decide),
    adapter_absent_on_failure.2.2.2.2.2.2.1 (fun _ => none) (fun _ => "")
      (fun _ => []) (fun _ => "") true [0] (by decide),
    adapter_absent_on_failure.2.2.2.1 (fun _ => none) (fun _ => "")
      (fun _ => []) (fun _ => "") (fun s => s) Net.fail⟩

/-- C10: `get_lyrics` returns absent when the candidate id is present
but not parseable as a decimal integer — `int(song_info.id)` raises
`ValueError`, caught at `kw.py` lines 80-83 — and it does so before and
independently of any network fetch (the result is `none` for *every*
fetch outcome, including a successful one). -/
theorem getLyrics_nonnumeric_id_absent :
    parsePyInt "abc" = none ∧
    (∀ inflate utf8d b64d gbd convert resp,
      getLyricsKW inflate utf8d b64d gbd convert "abc" resp = none) ∧
    (∀ songId, parsePyInt songId = none →
      ∀ inflate utf8d b64d gbd convert resp,
        getLyricsKW inflate utf8d b64d gbd convert songId resp = none) := by
  refine ⟨rfl, ?_, ?_⟩
  · intro inflate utf8d b64d gbd convert resp
    have hp : parsePyInt "abc" = none := rfl
    simp [getLyricsKW, hp]
  · intro songId hp inflate utf8d b64d gbd convert resp
    by_cases hi : songId = ""
    · simp [getLyricsKW, hi]
    · simp [getLyricsKW, hi, hp]

/-- C10 (witness): the generic clause applied at the non-numeric id
`"12a"` with concrete collaborator functions and a *successful* fetch
outcome. -/
theorem getLyrics_nonnumeric_id_absent_witness :
    getLyricsKW (fun _ => none) (fun _ => "") (fun _ => []) (fun _ => "")
      (fun s => s) "12a" (Net.ok [116]) = none :=
  getLyrics_nonnumeric_id_absent.2.2 "12a" rfl (fun _ => none) (fun _ => "")
    (fun _ => []) (fun _ => "") (fun s => s) (Net.ok [116])
